import Mathlib

set_option maxRecDepth 4000

/-!
Shallow embedding of `src/flappy.py` (a Pygame Flappy-Bird clone).

Conventions of the embedding:

* Pixel coordinates and sizes are integers (`ℤ`), exactly as pygame `Rect`
  stores them.  A rect is kept as its top-left corner `(x, y)` plus a
  width/height; `left = x`, `right = x + w`, `top = y`, `bottom = y + h`,
  matching pygame's derived attributes.
* The bird's vertical velocity is a Python float in the source, but every
  value it ever takes is a multiple of 0.1 (it starts at 0, jumps set it to
  -7.0, gravity adds 0.3, the clamp sets it to 5.0).  We therefore represent
  the velocity exactly, in tenths of a unit, as an integer `vel`
  (so `vel = -70` means velocity -7.0, `vel = 3` means 0.3).
* Python `int(...)` on such a value truncates toward zero; on a velocity in
  tenths this is `Int.tdiv vel 10`.  The mathematical floor of the velocity
  is `Int.fdiv vel 10`.
* Screen constants from the source: `screen_width = 500`,
  `screen_height = 700`, ground top edge at `700 - 168 = 532`,
  `scroll_speed = 3`, `pipe_gap = 160` (so half-gap 80),
  `pipe_frequency = 1800`, gravity 0.3 (`3` in tenths), clamp 5.0 (`50`),
  jump impulse -7.0 (`-70`).
* The sizes of the loaded images (bird and pipe sprites) are external data;
  they are carried as parameters/fields, never fixed.
* File persistence of the high score (`save_high_score`) is modelled by a
  `persisted` field of the game state that the save call overwrites.
-/

/-- Python `int()` applied to a velocity stored in tenths: truncation of
`v/10` toward zero, as Python `int(float)` truncates toward zero. -/
def pyIntTenths (v : ℤ) : ℤ := Int.tdiv v 10

/-- Mathematical floor of a velocity stored in tenths: `Int.fdiv v 10`
is exactly the floor of the rational `v/10` (see `fdiv_eq_ratFloor`). -/
def floorTenths (v : ℤ) : ℤ := Int.fdiv v 10

/-- Gravity application with clamping, from `Bird.update` lines 339-341:
`self.vel += 0.3; if self.vel > 5: self.vel = 5`, in tenths. -/
def velStep (v : ℤ) : ℤ := if v + 3 > 50 then 50 else v + 3

/-- The player sprite (`Bird.__init__`): rect top-left `(x, y)`, image size
`(w, h)`, velocity `vel` (tenths of a unit), input latch `clicked`, and the
animation counter/frame index. -/
structure Bird where
  x : ℤ
  y : ℤ
  w : ℤ
  h : ℤ
  vel : ℤ
  clicked : Bool
  counter : ℕ
  idx : ℕ
  deriving DecidableEq, Repr

/-- Construction of the player (`Bird.__init__(x, y)` with image size
`(w, h)`): `rect.center = [x, y]` puts the top-left at
`(x - w/2, y - h/2)` (pygame floor-divides the size by 2), `vel = 0`,
`clicked = False`, `counter = 0`, `index = 0`. -/
def Bird.init (w h x y : ℤ) : Bird :=
  { x := x - w / 2, y := y - h / 2, w := w, h := h, vel := 0,
    clicked := false, counter := 0, idx := 0 }

def Bird.left (b : Bird) : ℤ := b.x
def Bird.rightEdge (b : Bird) : ℤ := b.x + b.w
def Bird.top (b : Bird) : ℤ := b.y
def Bird.bottom (b : Bird) : ℤ := b.y + b.h

/-- Gravity part of `Bird.update` (lines 338-343), run when `flying`:
add 0.3 to the velocity, clamp it at 5.0, and if the bird's bottom is above
the ground line (`rect.bottom < screen_height - 168 = 532`) move `y` by
`int(self.vel)` (truncation toward zero). -/
def gravityFall (b : Bird) : Bird :=
  if b.bottom < 532 then
    { b with vel := velStep b.vel, y := b.y + pyIntTenths (velStep b.vel) }
  else
    { b with vel := velStep b.vel }

/-- Jump section of `Bird.update` (lines 345-354), run when not game over.
`pressed` is the polled disjunction mouse-button-0 or SPACE or UP.
A press while un-latched latches and sets the velocity to -7.0; a full
release un-latches. -/
def jumpLatch (pressed : Bool) (b : Bird) : Bird :=
  let b1 := if pressed = true ∧ b.clicked = false then
    { b with clicked := true, vel := -70 } else b
  if pressed = false then { b1 with clicked := false } else b1

/-- Animation part of `Bird.update` (lines 356-365): advance the flap
counter, and past the cooldown reset it and step the frame index,
wrapping at the number of frames (3). -/
def animate (b : Bird) : Bird :=
  if b.counter + 1 > 5 then
    { b with counter := 0, idx := if b.idx + 1 ≥ 3 then 0 else b.idx + 1 }
  else
    { b with counter := b.counter + 1 }

/-- One call of `Bird.update` (lines 336-371).  The rotated image is a pure
function of the velocity and frame index and is not state, so it is not
modelled.  Gravity runs when `flying`; the jump latch and animation run
when not `game_over`. -/
def Bird.update (flying gameOver pressed : Bool) (b : Bird) : Bird :=
  let b1 := if flying = true then gravityFall b else b
  if gameOver = false then animate (jumpLatch pressed b1) else b1

/-- A flying tick with no jump input held (gravity only). -/
def flyIdle (b : Bird) : Bird := Bird.update true false false b

/-- A flying tick with the jump input held down. -/
def flyHeld (b : Bird) : Bird := Bird.update true false true b

/-- An obstacle half (`Pipe.__init__`): rect top-left `(x, top)`, image
size `(w, h)`, and the `position` argument (1 = upper/flipped half,
-1 = lower half). -/
structure Pipe where
  x : ℤ
  top : ℤ
  w : ℤ
  h : ℤ
  pos : ℤ
  deriving DecidableEq, Repr

def Pipe.left (p : Pipe) : ℤ := p.x
def Pipe.rightEdge (p : Pipe) : ℤ := p.x + p.w
def Pipe.bottom (p : Pipe) : ℤ := p.top + p.h

/-- Construction of a pipe half (`Pipe.__init__(x, y, position)` with image
size `(w, h)`, `pipe_gap = 160`): `position = 1` flips the image and sets
`rect.bottomleft = [x, y - 80]` (so the top is `y - 80 - h`);
`position = -1` sets `rect.topleft = [x, y + 80]`.  Any other `position`
leaves the rect where `get_rect()` put it, at the origin. -/
def mkPipe (w h x y pos : ℤ) : Pipe :=
  if pos = 1 then { x := x, top := y - 80 - h, w := w, h := h, pos := 1 }
  else if pos = -1 then { x := x, top := y + 80, w := w, h := h, pos := -1 }
  else { x := 0, top := 0, w := w, h := h, pos := pos }

/-- The gap-center ordinate a pipe half was constructed from: inverting
`Pipe.__init__`, the upper half has `top = y - 80 - h` and the lower half
has `top = y + 80`. -/
def gapCenter (p : Pipe) : ℤ := if p.pos = 1 then p.top + p.h + 80 else p.top - 80

/-- The per-sprite motion of `Pipe.update` (line 393):
`self.rect.x -= scroll_speed` with `scroll_speed = 3`. -/
def movePipe (p : Pipe) : Pipe := { p with x := p.x - 3 }

/-- `pipe_group.update()` (lines 392-395): every live pipe moves left by
the scroll speed and is then killed exactly when its own right edge is
below 0. -/
def pipesUpdate (l : List Pipe) : List Pipe :=
  (l.map movePipe).filter (fun p => decide (¬ p.rightEdge < 0))

/-- One evaluation of the pass/score logic of the main loop
(lines 462-469), restricted to the score and pass flag, on the nearest
pair: `bl, br` are the player's left/right edges, `pl, pr` the pair's
left/right edges.  Entering the span (strict `>` and `<`) sets the flag;
with the flag set, the player's left edge strictly beyond the pair's right
edge credits one point and clears the flag. -/
def scoreStep (bl br pl pr : ℤ) (st : Bool × ℕ) : Bool × ℕ :=
  let pass := if bl > pl ∧ br < pr ∧ st.1 = false then true else st.1
  if pass = true ∧ bl > pr then (false, st.2 + 1) else (pass, st.2)

/-- The pass/score logic run for `n` consecutive ticks against one fixed
obstacle pair.  The player's edges do not move (the bird has no horizontal
motion); the pair scrolls left 3 units per tick (`Pipe.update`), so at
tick `i` its edges are `pl - 3*i` and `pr - 3*i`. -/
def passTrace (bl br pl pr : ℤ) (st : Bool × ℕ) : ℕ → Bool × ℕ
  | 0 => st
  | n + 1 => scoreStep bl br (pl - 3 * n) (pr - 3 * n) (passTrace bl br pl pr st n)

/-- The module-level mutable game state of `flappy.py`: the state flags
(lines 68-86), the in-memory high score (line 106), the sprite groups
(lines 430-435), and the persisted high-score file content (the
`high_score.json` record written by `save_high_score`). -/
structure GState where
  flying : Bool
  game_over : Bool
  game_started : Bool
  game_paused : Bool
  score : ℕ
  pass_pipe : Bool
  fade_counter : ℕ
  high_score : ℕ
  persisted : ℕ
  last_pipe : ℤ
  ground_scroll : ℤ
  bird : Bird
  pipes : List Pipe
  deriving DecidableEq, Repr

/-- Reading of `high_score.json` at startup (`load_high_score`,
lines 93-99): the stored value when the file parses, 0 on absence or
malformed content. -/
def load_high_score (stored : Option ℕ) : ℕ := stored.getD 0

/-- Writing of `high_score.json` (`save_high_score(score)`, lines 102-104,
as invoked at line 516 with argument `high_score`): overwrites the
persisted value with the in-memory high score. -/
def save_high_score (s : GState) : GState := { s with persisted := s.high_score }

/-- The `reset_game()` helper (lines 299-304): empty the pipe group, put
the bird's rect at `x = 100`, `y = int(screen_height / 2) = 350` (these
are assignments to `rect.x`/`rect.y`, i.e. the top-left corner), and
return 0, which the caller assigns to `score`.  Nothing else (in
particular not the velocity, latch, or pass flag) is touched. -/
def reset_game (s : GState) : GState :=
  { s with pipes := [], bird := { s.bird with x := 100, y := 350 }, score := 0 }

/-- The pass flag after the first `if` of the scoring block
(lines 462-465), against the nearest pipe `p`: set when the player is
strictly inside the pair's horizontal span and the flag was unset. -/
def passAfterEntry (p : Pipe) (s : GState) : Bool :=
  if s.bird.left > p.left ∧ s.bird.rightEdge < p.rightEdge ∧ s.pass_pipe = false
  then true else s.pass_pipe

/-- The scoring block of the main loop (lines 461-471): runs only when the
pipe group is non-empty and the game is not paused; examines the first
sprite of the group; on crediting, increments the score, clears the flag,
and raises the in-memory high score if the new score exceeds it. -/
def scoreCheck (s : GState) : GState :=
  match s.pipes with
  | [] => s
  | p :: _ =>
    if s.game_paused = true then s
    else if passAfterEntry p s = true ∧ s.bird.left > p.rightEdge then
      { s with
        score := s.score + 1,
        pass_pipe := false,
        high_score := if s.score + 1 > s.high_score then s.score + 1 else s.high_score }
    else { s with pass_pipe := passAfterEntry p s }

/-- Pipe generation (lines 475-482): when `now - last_pipe` exceeds the
spawn interval (1800 ms), append a bottom pipe then a top pipe, both built
from `x = screen_width = 500` and `y = 350 + jitter` (the `randint(-75,75)`
draw), and record the spawn time. -/
def spawnIfDue (now jitter pW pH : ℤ) (s : GState) : GState :=
  if now - s.last_pipe > 1800 then
    { s with
      pipes := s.pipes ++ [mkPipe pW pH 500 (350 + jitter) (-1),
                           mkPipe pW pH 500 (350 + jitter) 1],
      last_pipe := now }
  else s

/-- Ground scroll bookkeeping (lines 486-488): advance by the scroll speed
and wrap to 0 when the magnitude exceeds 35. -/
def scrollGround (s : GState) : GState :=
  { s with ground_scroll :=
      if 35 < (s.ground_scroll - 3).natAbs then 0 else s.ground_scroll - 3 }

/-- The `pipe_group.update()` call of the main loop (line 484) lifted to
the game state. -/
def pipesMove (s : GState) : GState := { s with pipes := pipesUpdate s.pipes }

/-- The spawn-and-motion block (lines 473-488), guarded by
`flying and not game_over and not game_paused`: possible spawn, the pipe
group update, then the ground scroll. -/
def spawnStep (now jitter pW pH : ℤ) (s : GState) : GState :=
  if s.flying = true ∧ s.game_over = false ∧ s.game_paused = false then
    scrollGround (pipesMove (spawnIfDue now jitter pW pH s))
  else s

/-- The pygame `Rect.colliderect` test between the bird's rect and a
pipe's rect: strict overlap on both axes. -/
def birdHitsPipe (b : Bird) (p : Pipe) : Bool :=
  decide (b.x < p.x + p.w ∧ b.x + b.w > p.x ∧ b.y < p.top + p.h ∧ b.y + b.h > p.top)

/-- The transition taken on a fatal collision (lines 494-496 and 500-502):
`game_over = True; game_started = False; flying = False`. -/
def fatal (s : GState) : GState :=
  { s with game_over := true, game_started := false, flying := false }

/-- Pipe-or-ceiling collision check (lines 492-496). -/
def collidePipesCeiling (s : GState) : GState :=
  if s.pipes.any (birdHitsPipe s.bird) = true ∨ s.bird.top < 0 then fatal s else s

/-- Ground collision check (lines 498-502). -/
def collideGround (s : GState) : GState :=
  if s.bird.bottom ≥ 532 then fatal s else s

/-- The collision block (lines 490-502), guarded by
`game_started and not game_paused`: first pipe collision
(`groupcollide`) or ceiling (`rect.top < 0`), then ground
(`rect.bottom >= screen_height - 168`). -/
def collisionStep (s : GState) : GState :=
  if s.game_started = true ∧ s.game_paused = false then
    collideGround (collidePipesCeiling s)
  else s

/-- The high-score part of the restart handler (lines 514-516): only if
the current score strictly exceeds the in-memory high score, raise the
high score to it and persist it. -/
def updateRecord (s : GState) : GState :=
  if s.score > s.high_score
  then save_high_score { s with high_score := s.score }
  else s

/-- The restart handling inside the game-over block (lines 508-517):
with the fade counter above 20 and a restart input held (mouse button,
SPACE, or RETURN), clear `game_over`, set `game_started`, zero the fade
counter, clear `flying`, run the high-score check (`updateRecord`), and
finally run `reset_game` and assign its result to the score. -/
def restartCheck (input : Bool) (s : GState) : GState :=
  if s.fade_counter > 20 ∧ input = true then
    reset_game (updateRecord { s with
      game_over := false,
      game_started := true,
      fade_counter := 0,
      flying := false })
  else s

/-- The game-over block (lines 505-517): when `game_over` is set,
`draw_game_over_screen()` increments the fade counter (line 261), and the
restart check then runs against the incremented counter. -/
def gameOverStep (input : Bool) (s : GState) : GState :=
  if s.game_over = true then
    restartCheck input { s with fade_counter := s.fade_counter + 1 }
  else s

/-- The three logical keys the event loop distinguishes (lines 533-542). -/
inductive GKey where
  | space
  | up
  | ret
  | other
  deriving DecidableEq, Repr

/-- A pygame event as consumed by the event loop (lines 519-542). -/
inductive GEvent where
  | quit
  | mouseDown (mx my : ℤ)
  | keyDown (k : GKey)
  deriving DecidableEq, Repr

/-- The event loop body (lines 519-542).  `QUIT` only clears the process
`run` flag, which is outside the game state.  A mouse press during an
active run toggles pause in the top-left 60x60 region and otherwise
starts flying when not paused; before the first launch it starts the
game.  SPACE/UP resume from pause, or launch when not yet flying;
RETURN toggles pause during an active run. -/
def handleEvent (s : GState) (e : GEvent) : GState :=
  match e with
  | .quit => s
  | .mouseDown mx my =>
    if s.game_over = false ∧ s.game_started = true then
      if mx < 60 ∧ my < 60 then { s with game_paused := !s.game_paused }
      else if s.game_paused = false then { s with flying := true }
      else s
    else if s.game_over = false ∧ s.game_started = false then
      { s with flying := true, game_started := true }
    else s
  | .keyDown .space | .keyDown .up =>
    if s.game_paused = true then { s with game_paused := false }
    else if s.flying = false ∧ s.game_over = false then
      { s with flying := true, game_started := true }
    else s
  | .keyDown .ret =>
    if s.game_started = true ∧ s.game_over = false then
      { s with game_paused := !s.game_paused }
    else s
  | .keyDown .other => s

/-- The polled and queued inputs of one loop iteration: the clock reading,
the jitter the spawner would draw, the pipe image size, the polled mouse
button and keys, and the drained event queue. -/
structure Inputs where
  now : ℤ
  jitter : ℤ
  pW : ℤ
  pH : ℤ
  mouse : Bool
  space : Bool
  up : Bool
  ret : Bool
  events : List GEvent
  deriving Repr

/-- The bird-update phase of the loop (lines 445-448):
`bird_group.update()` runs when `game_started and not game_paused`.
The polled jump input passed on is mouse-or-SPACE-or-UP
(lines 348-349). -/
def birdPhase (pressed : Bool) (s : GState) : GState :=
  if s.game_started = true ∧ s.game_paused = false then
    { s with bird := Bird.update s.flying s.game_over pressed s.bird }
  else s

/-- The simulation part of one main-loop iteration (lines 445-517), in
source order: the bird-update phase, the scoring block, the
spawn-and-motion block, the collision block, and the game-over block.
The polled restart input is mouse-or-SPACE-or-RETURN (line 509). -/
def simStep (i : Inputs) (s : GState) : GState :=
  gameOverStep (i.mouse || i.space || i.ret)
    (collisionStep (spawnStep i.now i.jitter i.pW i.pH
      (scoreCheck (birdPhase (i.mouse || i.space || i.up) s))))

/-- One full iteration of the main loop (lines 439-544): the simulation
part followed by draining the event queue (lines 519-542). -/
def tickLoop (i : Inputs) (s : GState) : GState :=
  i.events.foldl handleEvent (simStep i s)

/-- First pipe half of the concrete run used for the persistence trace:
a lower pipe whose right edge (50) is already behind the player. -/
def c1Pipe : Pipe := ⟨20, 430, 30, 100, -1⟩

/-- Concrete mid-run state: score 6, in-memory best already raised to 6
during play, best score 5 still on disk, the pass flag set, and the bird
about to hit the ceiling. -/
def c1Start : GState :=
  { flying := true, game_over := false, game_started := true,
    game_paused := false, score := 6, pass_pipe := true, fade_counter := 0,
    high_score := 6, persisted := 5, last_pipe := 0, ground_scroll := 0,
    bird := ⟨100, -5, 34, 24, 0, false, 0, 0⟩, pipes := [c1Pipe] }

/-- A loop iteration with no input at all. -/
def idleInputs : Inputs := ⟨0, 0, 30, 100, false, false, false, false, []⟩

/-- A loop iteration with the RETURN key held (a restart input). -/
def restartInputs : Inputs := ⟨0, 0, 30, 100, false, false, false, true, []⟩

/-- The state after the collision tick, 20 further game-over ticks, and a
tick with a restart input held (at which point the fade counter is 22). -/
def c1End : GState := tickLoop restartInputs ((tickLoop idleInputs)^[20] (tickLoop idleInputs c1Start))

/-- Concrete game-over state for the restart theorems: fade counter past
the debounce, bird falling at the clamp velocity (5.0), pass flag set. -/
def c3State : GState :=
  { flying := false, game_over := true, game_started := false,
    game_paused := false, score := 7, pass_pipe := true, fade_counter := 21,
    high_score := 7, persisted := 5, last_pipe := 0, ground_scroll := 0,
    bird := ⟨100, 500, 34, 24, 50, false, 0, 0⟩, pipes := [c1Pipe] }

/-- Concrete mid-run paused state. -/
def c8Paused : GState :=
  { flying := true, game_over := false, game_started := true,
    game_paused := true, score := 3, pass_pipe := false, fade_counter := 0,
    high_score := 7, persisted := 5, last_pipe := 0, ground_scroll := -6,
    bird := ⟨100, 300, 34, 24, 12, false, 2, 1⟩, pipes := [c1Pipe] }

/-- Concrete playing state with no obstacles and a stale pass flag. -/
def c5Empty : GState :=
  { flying := true, game_over := false, game_started := true,
    game_paused := false, score := 0, pass_pipe := true, fade_counter := 0,
    high_score := 7, persisted := 5, last_pipe := 0, ground_scroll := 0,
    bird := ⟨100, 300, 34, 24, 0, false, 0, 0⟩, pipes := [] }

-- Helper: `Int.fdiv v 10` is the mathematical floor of the rational `v/10`.
theorem fdiv_eq_ratFloor (v : ℤ) : Int.fdiv v 10 = Int.floor ((v : ℚ) / 10) := by
  have h10 : ((10 : ℕ) : ℚ) = (10 : ℚ) := by norm_num
  rw [show ((10 : ℚ)) = ((10 : ℕ) : ℚ) from h10.symm,
    Rat.floor_intCast_div_natCast v 10]
  rw [Int.fdiv_eq_ediv _ (by decide)]
  rfl

section PhysicsLemmas

-- The animation step never touches position, velocity, or the latch.
theorem animate_fields (b : Bird) :
    (animate b).vel = b.vel ∧ (animate b).y = b.y ∧ (animate b).clicked = b.clicked := by
  unfold animate
  by_cases h : b.counter + 1 > 5 <;> simp [h]

-- With no input held, the jump section only releases the latch.
theorem jumpLatch_false (b : Bird) :
    jumpLatch false b = { b with clicked := false } := by
  unfold jumpLatch
  simp

-- With the input held and the latch already set, the jump section is inert.
theorem jumpLatch_held_latched (b : Bird) (h : b.clicked = true) :
    jumpLatch true b = b := by
  unfold jumpLatch
  simp [h]

-- With the input held and the latch clear, the impulse fires and latches.
theorem jumpLatch_held_unlatched (b : Bird) (h : b.clicked = false) :
    jumpLatch true b = { b with clicked := true, vel := -70 } := by
  unfold jumpLatch
  simp [h]

-- Gravity always assigns the stepped velocity.
theorem gravityFall_vel (b : Bird) : (gravityFall b).vel = velStep b.vel := by
  unfold gravityFall
  by_cases h : b.bottom < 532 <;> simp [h]

theorem gravityFall_clicked (b : Bird) : (gravityFall b).clicked = b.clicked := by
  unfold gravityFall
  by_cases h : b.bottom < 532 <;> simp [h]

-- The stepped velocity never exceeds the clamp value 5.0 (50 tenths).
theorem velStep_le (v : ℤ) : velStep v ≤ 50 := by
  unfold velStep
  by_cases h : v + 3 > 50
  · simp [h]
  · simp [h]
    omega

-- A no-input flying tick: velocity is exactly the gravity step.
theorem flyIdle_vel (b : Bird) : (flyIdle b).vel = velStep b.vel := by
  unfold flyIdle Bird.update
  simp [jumpLatch_false, (animate_fields _).1, gravityFall_vel]

-- A held-input flying tick from a latched bird: gravity only, still latched.
theorem flyHeld_latched (b : Bird) (h : b.clicked = true) :
    (flyHeld b).vel = velStep b.vel ∧ (flyHeld b).clicked = true := by
  unfold flyHeld Bird.update
  have hc : (gravityFall b).clicked = true := by rw [gravityFall_clicked]; exact h
  simp [jumpLatch_held_latched _ hc, (animate_fields _).1, (animate_fields _).2.2,
    gravityFall_vel, hc]

-- A held-input flying tick from an unlatched bird: the impulse fires.
theorem flyHeld_unlatched (b : Bird) (h : b.clicked = false) :
    (flyHeld b).vel = -70 ∧ (flyHeld b).clicked = true := by
  unfold flyHeld Bird.update
  have hc : (gravityFall b).clicked = false := by rw [gravityFall_clicked]; exact h
  simp [jumpLatch_held_unlatched _ hc, (animate_fields _).1, (animate_fields _).2.2]

-- Iterating held ticks from a latched bird applies gravity only.
theorem flyHeld_iter_latched (k : ℕ) (b : Bird) (h : b.clicked = true) :
    (flyHeld^[k] b).vel = velStep^[k] b.vel ∧ (flyHeld^[k] b).clicked = true := by
  induction k generalizing b with
  | zero => exact ⟨rfl, h⟩
  | succ k ih =>
    rw [Function.iterate_succ_apply, Function.iterate_succ_apply]
    rcases flyHeld_latched b h with ⟨hv, hc⟩
    rcases ih (flyHeld b) hc with ⟨hv2, hc2⟩
    exact ⟨by rw [hv2, hv], hc2⟩

end PhysicsLemmas

/-- C2, counterexample.  The claim says the `y` increment on a flying tick
is the mathematical floor of the (clamped) velocity, for every velocity
including negative non-integer ones.  At velocity -7.0 (one tick after a
jump impulse), gravity yields -6.7; Python `int(-6.7)` is -6, while the
mathematical floor of -6.7 is -7, so from `y = 300` the code moves to 294
where the claim demands 293. -/
theorem C2_counterexample :
    (Bird.update true false false ⟨100, 300, 34, 24, -70, true, 0, 0⟩).y = 294 ∧
    (300 : ℤ) + floorTenths (velStep (-70)) = 293 ∧
    floorTenths (velStep (-70)) = Int.floor (((velStep (-70) : ℤ) : ℚ) / 10) ∧
    (294 : ℤ) ≠ 293 := by
  refine ⟨by decide, by decide, ?_, by decide⟩
  exact fdiv_eq_ratFloor _

/-- C2 (amended): on every flying-enabled tick with no jump input, after
gravity is applied and the velocity clamped, if the player's bottom edge
is above the ground boundary (532) the `y` position is incremented by the
velocity truncated toward zero (Python `int`), not its floor; otherwise
`y` is unchanged. -/
theorem C2_truncation (b : Bird) :
    (Bird.update true false false b).vel = velStep b.vel ∧
    (b.bottom < 532 → (Bird.update true false false b).y = b.y + pyIntTenths (velStep b.vel)) ∧
    (¬ b.bottom < 532 → (Bird.update true false false b).y = b.y) := by
  have hu : Bird.update true false false b
      = animate (jumpLatch false (gravityFall b)) := by
    unfold Bird.update
    simp
  refine ⟨?_, ?_, ?_⟩
  · rw [hu, (animate_fields _).1, jumpLatch_false]
    exact gravityFall_vel b
  · intro hb
    rw [hu, (animate_fields _).2.1, jumpLatch_false]
    show (gravityFall b).y = b.y + pyIntTenths (velStep b.vel)
    unfold gravityFall
    simp [hb]
  · intro hb
    rw [hu, (animate_fields _).2.1, jumpLatch_false]
    show (gravityFall b).y = b.y
    unfold gravityFall
    simp [hb]

/-- C2 witness: the truncation theorem evaluated at a concrete falling
bird whose bottom edge is above the ground line. -/
theorem C2_truncation_witness :
    ((Bird.update true false false ⟨100, 300, 34, 24, 8, false, 0, 0⟩).vel
        = velStep 8) ∧
    ((300 : ℤ) + 24 < 532) ∧
    ((Bird.update true false false ⟨100, 300, 34, 24, 8, false, 0, 0⟩).y
        = 300 + pyIntTenths (velStep 8)) :=
  ⟨(C2_truncation _).1, by decide,
    (C2_truncation ⟨100, 300, 34, 24, 8, false, 0, 0⟩).2.1 (by decide)⟩

/-- C6 (confirmed): for every tick count `n`, after `n` consecutive
flying-enabled ticks with no jump input from any state whose velocity
does not exceed the clamp (5.0, i.e. 50 tenths — every reachable state,
since jumps set -7.0 and the gravity step clamps at 5.0), the velocity is
still at most 5.0. -/
theorem C6_velocity_clamp (n : ℕ) (b : Bird) (h : b.vel ≤ 50) :
    (flyIdle^[n] b).vel ≤ 50 := by
  induction n generalizing b with
  | zero => exact h
  | succ n ih =>
    rw [Function.iterate_succ_apply]
    exact ih (flyIdle b) (by rw [flyIdle_vel]; exact velStep_le b.vel)

/-- C6 witness: 100 idle flying ticks from the spawn state. -/
theorem C6_velocity_clamp_witness :
    (Bird.init 34 24 100 350).vel ≤ 50 ∧
    (flyIdle^[100] (Bird.init 34 24 100 350)).vel ≤ 50 :=
  ⟨by decide, C6_velocity_clamp 100 _ (by decide)⟩

/-- C7 (confirmed): holding the jump input continuously applies the
impulse exactly once.  From an un-latched bird, after `m + 1` consecutive
held flying ticks the velocity is exactly `m` gravity steps applied to the
impulse value -7.0 (so the impulse fired once, on the first tick, and
never again), the latch is set throughout, and a subsequent tick with the
input fully released clears the latch again. -/
theorem C7_jump_latch (m : ℕ) (b : Bird) (h : b.clicked = false) :
    (flyHeld^[m + 1] b).vel = velStep^[m] (-70) ∧
    (flyHeld^[m + 1] b).clicked = true ∧
    (Bird.update true false false (flyHeld^[m + 1] b)).clicked = false := by
  have h1 := flyHeld_unlatched b h
  have h2 := flyHeld_iter_latched m (flyHeld b) h1.2
  rw [Function.iterate_succ_apply]
  refine ⟨by rw [h2.1, h1.1], h2.2, ?_⟩
  unfold Bird.update
  simp [jumpLatch_false, (animate_fields _).2.2]

/-- C7 witness: ten held ticks from the spawn state. -/
theorem C7_jump_latch_witness :
    (Bird.init 34 24 100 350).clicked = false ∧
    (flyHeld^[10] (Bird.init 34 24 100 350)).vel = velStep^[9] (-70) :=
  ⟨by decide, (C7_jump_latch 9 _ (by decide)).1⟩

section ScoringLemmas

-- Branch form of one evaluation of the pass/score logic.
theorem scoreStep_eq (bl br pl pr : ℤ) (pass : Bool) (sc : ℕ) :
    scoreStep bl br pl pr (pass, sc) =
      if pass = true then (if bl > pr then (false, sc + 1) else (true, sc))
      else if bl > pl ∧ br < pr then
        (if bl > pr then (false, sc + 1) else (true, sc))
      else (false, sc) := by
  cases pass <;> by_cases h1 : bl > pl ∧ br < pr <;> by_cases h2 : bl > pr <;>
    simp [scoreStep, h1, h2]

-- Over any number of ticks against one scrolling pair, the score rises by
-- at most one, and once it has risen the flag is down and the pair's right
-- edge is already strictly behind the player's left edge.
theorem passTrace_bound (bl br pl pr : ℤ) (hwb : bl ≤ br) (st : Bool × ℕ) (n : ℕ) :
    st.2 ≤ (passTrace bl br pl pr st n).2 ∧
    (passTrace bl br pl pr st n).2 ≤ st.2 + 1 ∧
    ((passTrace bl br pl pr st n).2 = st.2 + 1 →
      (passTrace bl br pl pr st n).1 = false ∧ pr - 3 * ((n : ℤ) - 1) < bl) := by
  induction n with
  | zero =>
    refine ⟨le_refl _, ?_, fun hq => ?_⟩
    · show st.2 ≤ st.2 + 1
      omega
    · exact absurd (show st.2 = st.2 + 1 from hq) (by omega)
  | succ n ih =>
    obtain ⟨h1, h2, h3⟩ := ih
    have hstep : passTrace bl br pl pr st (n + 1)
        = scoreStep bl br (pl - 3 * n) (pr - 3 * n) (passTrace bl br pl pr st n) := rfl
    rcases hr : passTrace bl br pl pr st n with ⟨p, c⟩
    rw [hr] at h1 h2 h3
    simp only at h1 h2 h3
    rw [hstep, hr, scoreStep_eq]
    cases p with
    | true =>
      have hc : c = st.2 := by
        by_cases hcc : c = st.2 + 1
        · exact absurd (h3 hcc).1 (by simp)
        · omega
      by_cases h4 : bl > pr - 3 * (n : ℤ)
      · rw [if_pos rfl, if_pos h4]
        refine ⟨by simp [hc], by simp [hc], fun _ => ⟨rfl, ?_⟩⟩
        push_cast
        omega
      · rw [if_pos rfl, if_neg h4]
        refine ⟨by simpa using h1, by simpa using h2, fun hq => ?_⟩
        simp only at hq
        exact absurd (h3 hq).1 (by simp)
    | false =>
      by_cases h5 : bl > pl - 3 * (n : ℤ) ∧ br < pr - 3 * (n : ℤ)
      · by_cases h4 : bl > pr - 3 * (n : ℤ)
        · exfalso
          obtain ⟨-, h52⟩ := h5
          omega
        · rw [if_neg (by simp), if_pos h5, if_neg h4]
          refine ⟨by simpa using h1, by simpa using h2, fun hq => ?_⟩
          simp only at hq
          obtain ⟨-, h32⟩ := h3 hq
          obtain ⟨-, h52⟩ := h5
          exfalso
          omega
      · rw [if_neg (by simp), if_neg h5]
        refine ⟨by simpa using h1, by simpa using h2, fun hq => ⟨rfl, ?_⟩⟩
        simp only at hq
        obtain ⟨-, h32⟩ := h3 hq
        push_cast at h32 ⊢
        omega

-- Full characterisation of the trace from an unset flag with the player
-- strictly inside the pair's span at tick 0: the flag goes up on the first
-- tick and exactly one point is credited once the pair has scrolled past.
theorem passTrace_char (bl br pl pr : ℤ) (hwb : bl ≤ br) (hpl : pl < bl)
    (hpr : br < pr) (sc : ℕ) (n : ℕ) :
    passTrace bl br pl pr (false, sc) (n + 1)
      = if bl > pr - 3 * (n : ℤ) then (false, sc + 1) else (true, sc) := by
  induction n with
  | zero =>
    have hstep : passTrace bl br pl pr (false, sc) 1
        = scoreStep bl br (pl - 3 * ((0 : ℕ) : ℤ)) (pr - 3 * ((0 : ℕ) : ℤ)) (false, sc) := rfl
    have hA : bl > pl - 3 * ((0 : ℕ) : ℤ) ∧ br < pr - 3 * ((0 : ℕ) : ℤ) := by
      push_cast
      omega
    have hC : ¬ bl > pr - 3 * ((0 : ℕ) : ℤ) := by
      push_cast
      omega
    rw [hstep, scoreStep_eq, if_neg (show ¬ (false = true) by simp), if_pos hA, if_neg hC]
  | succ n ih =>
    have hstep : passTrace bl br pl pr (false, sc) (n + 1 + 1)
        = scoreStep bl br (pl - 3 * ((n + 1 : ℕ) : ℤ)) (pr - 3 * ((n + 1 : ℕ) : ℤ))
            (passTrace bl br pl pr (false, sc) (n + 1)) := rfl
    rw [hstep, ih]
    by_cases h4 : bl > pr - 3 * (n : ℤ)
    · have hni : ¬ (bl > pl - 3 * ((n + 1 : ℕ) : ℤ) ∧ br < pr - 3 * ((n + 1 : ℕ) : ℤ)) := by
        push_cast
        omega
      have hcr : bl > pr - 3 * ((n + 1 : ℕ) : ℤ) := by
        push_cast
        omega
      rw [if_pos h4, scoreStep_eq, if_neg (show ¬ (false = true) by simp), if_neg hni,
        if_pos hcr]
    · rw [if_neg h4, scoreStep_eq, if_pos rfl]

end ScoringLemmas

/-- C4 (confirmed): against one fixed obstacle pair (player edges `bl, br`
fixed, the pair scrolling left 3/tick from edges `pl, pr`), the pass/score
logic credits at most one point over any number of ticks, whatever the
initial flag and score; if the player starts strictly inside the span with
the flag unset, then on any tick by which the pair's right edge has
scrolled strictly past the player's left edge the score is exactly one
more, so exactly one point is credited for the pair.  Moreover entering
the span requires strict inequalities on both edges (equality on either
edge sets no flag) and crediting requires the player's left edge strictly
greater than the pair's right edge (equality credits nothing). -/
theorem C4_exactly_once (bl br pl pr : ℤ) (hwb : bl ≤ br) :
    (∀ (st : Bool × ℕ) (n : ℕ),
        st.2 ≤ (passTrace bl br pl pr st n).2 ∧
        (passTrace bl br pl pr st n).2 ≤ st.2 + 1) ∧
    (pl < bl → br < pr → ∀ (sc n : ℕ), bl > pr - 3 * (n : ℤ) →
        passTrace bl br pl pr (false, sc) (n + 1) = (false, sc + 1)) ∧
    (∀ (sc : ℕ) (pr2 : ℤ), scoreStep bl br bl pr2 (false, sc) = (false, sc)) ∧
    (∀ (sc : ℕ) (pl2 : ℤ), scoreStep bl br pl2 br (false, sc) = (false, sc)) ∧
    (∀ (sc : ℕ) (pl2 : ℤ), scoreStep bl br pl2 bl (true, sc) = (true, sc)) := by
  refine ⟨fun st n => ⟨(passTrace_bound bl br pl pr hwb st n).1,
      (passTrace_bound bl br pl pr hwb st n).2.1⟩,
    fun hpl hpr sc n hn => by
      rw [passTrace_char bl br pl pr hwb hpl hpr sc n, if_pos hn],
    ?_, ?_, ?_⟩
  · intro sc pr2
    rw [scoreStep_eq, if_neg (by simp), if_neg (by simp [lt_irrefl])]
  · intro sc pl2
    rw [scoreStep_eq, if_neg (by simp), if_neg (by simp [lt_irrefl])]
  · intro sc pl2
    rw [scoreStep_eq, if_pos rfl, if_neg (by simp [lt_irrefl])]

/-- C4 witness: a 34-wide player at `x = 100` against a pair spawned with
edges 50 and 260; after 55 ticks the pair has scrolled past and exactly
one point was credited. -/
theorem C4_exactly_once_witness :
    (100 : ℤ) ≤ 134 ∧
    passTrace 100 134 50 260 (false, 3) 55 = (false, 4) := by
  refine ⟨by decide, ?_⟩
  exact (C4_exactly_once 100 134 50 260 (by decide)).2.1 (by decide) (by decide)
    3 54 (by decide)

section StateLemmas

-- The scoring block is a no-op while paused.
theorem scoreCheck_paused (s : GState) (hp : s.game_paused = true) :
    scoreCheck s = s := by
  unfold scoreCheck
  cases hps : s.pipes <;> simp [hp]

-- The scoring block is skipped entirely when there are no obstacles.
theorem scoreCheck_nil (s : GState) (hn : s.pipes = []) : scoreCheck s = s := by
  unfold scoreCheck
  rw [hn]

-- The scoring block never lowers the in-memory high score.
theorem scoreCheck_high (s : GState) : s.high_score ≤ (scoreCheck s).high_score := by
  unfold scoreCheck
  cases hps : s.pipes with
  | nil => exact le_refl _
  | cons p rest =>
    by_cases hp : s.game_paused = true
    · simp [hp]
    · by_cases hcr : passAfterEntry p s = true ∧ s.bird.left > p.rightEdge
      · simp only [hp, if_false, Bool.false_eq_true, if_pos hcr]
        by_cases hh : s.score + 1 > s.high_score
        · simp [hh]
          omega
        · simp [hh]
      · simp [hp, hcr]

-- The spawn-and-motion block never touches the high score.
theorem spawnStep_high (now jitter pW pH : ℤ) (s : GState) :
    (spawnStep now jitter pW pH s).high_score = s.high_score := by
  unfold spawnStep scrollGround pipesMove spawnIfDue
  split_ifs <;> rfl

-- The collision block never touches the high score.
theorem collisionStep_high (s : GState) :
    (collisionStep s).high_score = s.high_score := by
  unfold collisionStep collideGround collidePipesCeiling fatal
  split_ifs <;> rfl

-- The restart check never lowers the in-memory high score.
theorem restartCheck_high (input : Bool) (s : GState) :
    s.high_score ≤ (restartCheck input s).high_score := by
  unfold restartCheck reset_game updateRecord save_high_score
  split_ifs with h1 h2
  · dsimp only at h2 ⊢
    omega
  · exact le_refl _
  · exact le_refl _

-- The game-over block never lowers the in-memory high score.
theorem gameOverStep_high (input : Bool) (s : GState) :
    s.high_score ≤ (gameOverStep input s).high_score := by
  unfold gameOverStep
  split_ifs
  · calc s.high_score
        = ({ s with fade_counter := s.fade_counter + 1 } : GState).high_score := rfl
      _ ≤ _ := restartCheck_high input _
  · exact le_refl _

-- The event handler changes no scoring state at all.
theorem handleEvent_high (s : GState) (e : GEvent) :
    (handleEvent s e).high_score = s.high_score := by
  cases e with
  | quit => rfl
  | mouseDown mx my =>
    show (if s.game_over = false ∧ s.game_started = true then
        if mx < 60 ∧ my < 60 then { s with game_paused := !s.game_paused }
        else if s.game_paused = false then { s with flying := true } else s
      else if s.game_over = false ∧ s.game_started = false then
        { s with flying := true, game_started := true }
      else s).high_score = s.high_score
    split_ifs <;> rfl
  | keyDown k =>
    cases k with
    | space =>
      show (if s.game_paused = true then { s with game_paused := false }
        else if s.flying = false ∧ s.game_over = false then
          { s with flying := true, game_started := true }
        else s).high_score = s.high_score
      split_ifs <;> rfl
    | up =>
      show (if s.game_paused = true then { s with game_paused := false }
        else if s.flying = false ∧ s.game_over = false then
          { s with flying := true, game_started := true }
        else s).high_score = s.high_score
      split_ifs <;> rfl
    | ret =>
      show (if s.game_started = true ∧ s.game_over = false then
        { s with game_paused := !s.game_paused } else s).high_score = s.high_score
      split_ifs <;> rfl
    | other => rfl

theorem foldl_handleEvent_high (l : List GEvent) (s : GState) :
    (l.foldl handleEvent s).high_score = s.high_score := by
  induction l generalizing s with
  | nil => rfl
  | cons e rest ih => rw [List.foldl_cons, ih, handleEvent_high]

end StateLemmas

/-- C10 (confirmed): the in-memory high score never decreases across a
full main-loop iteration, whatever the inputs and events: it is only ever
assigned from the current score under a strict-improvement guard, in the
scoring block and in the restart handler. -/
theorem C10_high_monotone (i : Inputs) (s : GState) :
    s.high_score ≤ (tickLoop i s).high_score := by
  unfold tickLoop simStep
  rw [foldl_handleEvent_high]
  have hb : (birdPhase (i.mouse || i.space || i.up) s).high_score = s.high_score := by
    unfold birdPhase
    split <;> rfl
  calc s.high_score
      = _ := hb.symm
    _ ≤ _ := scoreCheck_high _
    _ = _ := (spawnStep_high i.now i.jitter i.pW i.pH _).symm
    _ = _ := (collisionStep_high _).symm
    _ ≤ _ := gameOverStep_high _ _

/-- C8 (confirmed): while paused during an active run, the whole
simulation part of a tick is the identity — player position, every
obstacle's position, the score (and everything else) are unchanged and
nothing spawns — and the only event that changes the state at all is a
resume/toggle input, whose sole effect is to clear the pause flag. -/
theorem C8_pause_freeze (i : Inputs) (s : GState) (hp : s.game_paused = true)
    (ho : s.game_over = false) (hs : s.game_started = true) :
    simStep i s = s ∧
    ∀ e : GEvent, handleEvent s e = s ∨
      handleEvent s e = { s with game_paused := false } := by
  constructor
  · unfold simStep
    rw [show birdPhase (i.mouse || i.space || i.up) s = s from by
        unfold birdPhase
        rw [if_neg]
        simp [hp]]
    rw [scoreCheck_paused s hp]
    rw [show spawnStep i.now i.jitter i.pW i.pH s = s from by
        unfold spawnStep
        rw [if_neg]
        simp [hp]]
    rw [show collisionStep s = s from by
        unfold collisionStep
        rw [if_neg]
        simp [hp]]
    unfold gameOverStep
    rw [if_neg]
    simp [ho]
  · intro e
    cases e with
    | quit => exact Or.inl rfl
    | mouseDown mx my =>
      have he : handleEvent s (GEvent.mouseDown mx my)
          = (if s.game_over = false ∧ s.game_started = true then
              if mx < 60 ∧ my < 60 then { s with game_paused := !s.game_paused }
              else if s.game_paused = false then { s with flying := true } else s
            else if s.game_over = false ∧ s.game_started = false then
              { s with flying := true, game_started := true }
            else s) := rfl
      rw [he, if_pos ⟨ho, hs⟩]
      by_cases hm : mx < 60 ∧ my < 60
      · right
        rw [if_pos hm, hp, Bool.not_true]
      · left
        rw [if_neg hm, if_neg (by simp [hp])]
    | keyDown k =>
      cases k with
      | space =>
        right
        show (if s.game_paused = true then { s with game_paused := false }
          else if s.flying = false ∧ s.game_over = false then
            { s with flying := true, game_started := true }
          else s) = { s with game_paused := false }
        rw [if_pos hp]
      | up =>
        right
        show (if s.game_paused = true then { s with game_paused := false }
          else if s.flying = false ∧ s.game_over = false then
            { s with flying := true, game_started := true }
          else s) = { s with game_paused := false }
        rw [if_pos hp]
      | ret =>
        right
        show (if s.game_started = true ∧ s.game_over = false then
          { s with game_paused := !s.game_paused } else s)
            = { s with game_paused := false }
        rw [if_pos ⟨hs, ho⟩, hp, Bool.not_true]
      | other => exact Or.inl rfl

/-- C8 witness: a concrete paused mid-run state; the simulation part of a
tick leaves it unchanged, and a SPACE press resumes. -/
theorem C8_pause_freeze_witness :
    (c8Paused.game_paused = true ∧ c8Paused.game_over = false ∧
      c8Paused.game_started = true) ∧
    simStep idleInputs c8Paused = c8Paused ∧
    (handleEvent c8Paused (GEvent.keyDown GKey.space) = c8Paused ∨
      handleEvent c8Paused (GEvent.keyDown GKey.space)
        = { c8Paused with game_paused := false }) :=
  ⟨⟨rfl, rfl, rfl⟩, (C8_pause_freeze idleInputs c8Paused rfl rfl rfl).1,
    (C8_pause_freeze idleInputs c8Paused rfl rfl rfl).2 _⟩

/-- C9 (confirmed): when the spawner fires it appends exactly one bottom
half and one top half, both constructed from the same gap-center ordinate
`350 + jitter` and the same spawn abscissa 500; and under the pipe-group
update each moved pipe survives exactly when its own right edge is not
below 0, independently of any other member of the collection. -/
theorem C9_pair_integrity (pW pH jitter now : ℤ) (s : GState) (l : List Pipe)
    (p : Pipe) (hm : p ∈ l) :
    (now - s.last_pipe > 1800 →
      (spawnIfDue now jitter pW pH s).pipes
        = s.pipes ++ [mkPipe pW pH 500 (350 + jitter) (-1),
                      mkPipe pW pH 500 (350 + jitter) 1]) ∧
    gapCenter (mkPipe pW pH 500 (350 + jitter) (-1)) = 350 + jitter ∧
    gapCenter (mkPipe pW pH 500 (350 + jitter) 1) = 350 + jitter ∧
    (mkPipe pW pH 500 (350 + jitter) (-1)).x = 500 ∧
    (mkPipe pW pH 500 (350 + jitter) 1).x = 500 ∧
    (movePipe p ∈ pipesUpdate l ↔ ¬ (movePipe p).rightEdge < 0) := by
  refine ⟨?_, ?_, ?_, ?_, ?_, ?_, ?_⟩
  · intro h
    unfold spawnIfDue
    rw [if_pos h]
  · simp [mkPipe, gapCenter]
  · simp only [mkPipe, gapCenter, if_pos rfl]
    norm_num
  · simp [mkPipe]
  · simp [mkPipe]
  · intro hmem
    have h := (List.mem_filter.mp hmem).2
    simpa using h
  · intro hc
    exact List.mem_filter.mpr ⟨List.mem_map_of_mem _ hm, by simpa using hc⟩

/-- C9 witness: the spawner firing at time 2000 on the concrete state
`c1Start`, and the removal rule on a singleton pipe list. -/
theorem C9_pair_integrity_witness :
    (c1Pipe ∈ [c1Pipe] ∧ (2000 : ℤ) - c1Start.last_pipe > 1800) ∧
    (spawnIfDue 2000 0 30 100 c1Start).pipes
      = c1Start.pipes ++ [mkPipe 30 100 500 (350 + 0) (-1),
                          mkPipe 30 100 500 (350 + 0) 1] ∧
    gapCenter (mkPipe 30 100 500 (350 + 0) (-1)) = 350 + 0 ∧
    (movePipe c1Pipe ∈ pipesUpdate [c1Pipe] ↔
      ¬ (movePipe c1Pipe).rightEdge < 0) :=
  ⟨⟨by simp, by decide⟩,
    (C9_pair_integrity 30 100 0 2000 c1Start [c1Pipe] c1Pipe (by simp)).1 (by decide),
    (C9_pair_integrity 30 100 0 2000 c1Start [c1Pipe] c1Pipe (by simp)).2.1,
    (C9_pair_integrity 30 100 0 2000 c1Start [c1Pipe] c1Pipe (by simp)).2.2.2.2.2⟩

/-- C3, counterexample.  The claim says a qualifying restart resets the
player's position and velocity to their spawn values.  On the concrete
game-over state `c3State` (fade counter 21, bird falling at velocity 5.0)
the restart fires — score, pipes, and fade counter are all reset and the
bird is repositioned — yet the velocity is still 5.0, while the spawn
velocity (`Bird.init`, from `Bird.__init__`) is 0. -/
theorem C3_counterexample :
    (restartCheck true c3State).score = 0 ∧
    (restartCheck true c3State).pipes = [] ∧
    (restartCheck true c3State).fade_counter = 0 ∧
    (restartCheck true c3State).bird.x = 100 ∧
    (restartCheck true c3State).bird.y = 350 ∧
    (restartCheck true c3State).bird.vel = 50 ∧
    (Bird.init 34 24 100 350).vel = 0 ∧ (50 : ℤ) ≠ 0 := by
  decide

/-- C3 (amended): a restart input with the fade counter at most 20 (or no
restart input at all) has no effect; with the counter above 20 it resets
the score to 0, empties the obstacle collection, zeroes the fade counter,
clears `game_over`, sets `game_started`, clears `flying`, and puts the
player's top-left corner at the spawn coordinates (100, 350) — but the
player's velocity is not reset: it keeps its pre-restart value. -/
theorem C3_restart_debounce (input : Bool) (s : GState) :
    (s.fade_counter ≤ 20 → restartCheck input s = s) ∧
    (input = false → restartCheck input s = s) ∧
    (s.fade_counter > 20 → input = true →
      (restartCheck input s).score = 0 ∧
      (restartCheck input s).pipes = [] ∧
      (restartCheck input s).fade_counter = 0 ∧
      (restartCheck input s).game_over = false ∧
      (restartCheck input s).game_started = true ∧
      (restartCheck input s).flying = false ∧
      (restartCheck input s).bird.x = 100 ∧
      (restartCheck input s).bird.y = 350 ∧
      (restartCheck input s).bird.vel = s.bird.vel) := by
  refine ⟨?_, ?_, ?_⟩
  · intro h
    unfold restartCheck
    rw [if_neg (fun hc => absurd hc.1 (by omega))]
  · intro h
    unfold restartCheck
    rw [if_neg (fun hc => by rw [h] at hc; exact Bool.false_ne_true hc.2)]
  · intro h1 h2
    unfold restartCheck reset_game updateRecord save_high_score
    rw [if_pos ⟨h1, h2⟩]
    split_ifs <;> exact ⟨rfl, rfl, rfl, rfl, rfl, rfl, rfl, rfl, rfl⟩

/-- C3 witness: the debounce case at fade counter 20 and the reset case
at fade counter 21, on concrete states. -/
theorem C3_restart_debounce_witness :
    (({ c3State with fade_counter := 20 } : GState).fade_counter ≤ 20 ∧
      restartCheck true { c3State with fade_counter := 20 }
        = { c3State with fade_counter := 20 }) ∧
    (c3State.fade_counter > 20 ∧
      (restartCheck true c3State).score = 0 ∧
      (restartCheck true c3State).bird.vel = c3State.bird.vel) :=
  ⟨⟨by decide, (C3_restart_debounce true _).1 (by decide)⟩,
    ⟨by decide,
      ((C3_restart_debounce true c3State).2.2 (by decide) rfl).1,
      ((C3_restart_debounce true c3State).2.2 (by decide) rfl).2.2.2.2.2.2.2.2⟩⟩

/-- C5, counterexample.  The claim says the pass flag is unset whenever no
obstacle pair is in the pass window, in particular that it is cleared once
the collection is empty (including after a reset).  On `c3State` (pass
flag set, fade counter 21) a qualifying restart empties the collection yet
leaves the flag set; and on `c5Empty` (no obstacles, flag set) the scoring
block leaves the whole state — flag included — untouched. -/
theorem C5_counterexample :
    (restartCheck true c3State).pipes = [] ∧
    (restartCheck true c3State).pass_pipe = true ∧
    scoreCheck c5Empty = c5Empty ∧
    c5Empty.pass_pipe = true ∧ c5Empty.pipes = [] := by
  decide

/-- C5 (amended): the pass flag is cleared exactly by crediting a pass:
the restart handler (and so `reset_game`) never changes it, and with an
empty obstacle collection the scoring block is skipped entirely, so a
stale flag does survive into (and through) states with no obstacles;
when the flag is set and the nearest pipe's right edge is strictly behind
the player's left edge, crediting clears it and increments the score. -/
theorem C5_flag_lifecycle (input : Bool) (s : GState) (p : Pipe)
    (rest : List Pipe) :
    ((restartCheck input s).pass_pipe = s.pass_pipe) ∧
    (s.pipes = [] → scoreCheck s = s) ∧
    (s.pipes = p :: rest → s.game_paused = false → s.pass_pipe = true →
      s.bird.left > p.rightEdge →
      (scoreCheck s).pass_pipe = false ∧ (scoreCheck s).score = s.score + 1) := by
  refine ⟨?_, scoreCheck_nil s, ?_⟩
  · unfold restartCheck reset_game updateRecord save_high_score
    split_ifs <;> rfl
  · intro hps hpa hpp hbl
    have hpe : passAfterEntry p s = true := by
      unfold passAfterEntry
      rw [hpp]
      split_ifs <;> rfl
    simp only [scoreCheck, hps]
    rw [if_neg (show ¬ s.game_paused = true by simp [hpa]), if_pos ⟨hpe, hbl⟩]
    exact ⟨rfl, rfl⟩

/-- C5 witness: the flag survives a restart unchanged, and crediting on
the concrete state `c1Start` (flag set, first pipe already behind the
player) clears it and increments the score. -/
theorem C5_flag_lifecycle_witness :
    ((restartCheck true c1Start).pass_pipe = c1Start.pass_pipe) ∧
    ((scoreCheck c1Start).pass_pipe = false ∧
      (scoreCheck c1Start).score = c1Start.score + 1) :=
  ⟨(C5_flag_lifecycle true c1Start c1Pipe []).1,
    (C5_flag_lifecycle true c1Start c1Pipe []).2.2 rfl rfl rfl (by decide)⟩

/-- C1 (code bug): on the concrete run `c1Start` (best score 5 on disk,
in-memory best already 6), the collision tick credits the pending pass —
score 7, in-memory best 7, disk still 5 — and the run ends.  After the
debounce, a qualifying restart input fires (the state visibly resets),
but because the in-memory best was already raised during play, the
`score > high_score` guard in front of `save_high_score` is false and
nothing is persisted: the best on disk stays 5, where the claim (and the
spec) require it to become 7. -/
theorem C1_persistence_dead_save :
    ((tickLoop idleInputs c1Start).score = 7 ∧
      (tickLoop idleInputs c1Start).game_over = true ∧
      (tickLoop idleInputs c1Start).high_score = 7 ∧
      (tickLoop idleInputs c1Start).persisted = 5) ∧
    (c1End.game_over = false ∧ c1End.game_started = true ∧
      c1End.score = 0 ∧ c1End.fade_counter = 0) ∧
    (c1End.persisted = 5 ∧ c1End.high_score = 7) := by
  decide
